import Mathlib

/-!
Shallow embedding of the loopholelabs/cloudflare client library.

The repository holds two historical variants of the same HTTP client in
`cloudflare.go` (an older `Client` with `UploadScaleFunction` /
`DeleteScaleFunction`, and a newer `Cloudflare` with `UploadFunction` /
`DeleteFunction`), a configuration package (`pkg/config/config.go`), and the
response models (`pkg/models`).  Pure computations (multipart body assembly,
metadata construction, validation) are embedded as Lean functions; the HTTP
round trips are embedded as functions parameterised by the network, modelled
as a total function from requests to responses, and every operation also
returns the ordered list of requests it issued.  Byte slices are modelled as
`String` (an opaque byte payload), and Go's `net/url` parsing is modelled as
accepting any string without ASCII control characters and as printing the
parsed URL back verbatim (URL re-encoding is not modelled).
-/

namespace CF

/-! ## Configuration (`pkg/config/config.go`) -/

/-- The four `errors.New` values of `pkg/config/config.go`:
`ErrUserIDRequired`, `ErrTokenRequired`, `ErrPrefixRequired`,
`ErrUpstreamRootDomainRequired`. -/
inductive ConfigError where
  | userIDRequired
  | tokenRequired
  | prefixRequired
  | upstreamRootDomainRequired
deriving DecidableEq, Repr

/-- The `Config` struct of `pkg/config/config.go`. -/
structure Config where
  Disabled : Bool
  UserID : String
  Token : String
  Prefix : String
  UpstreamRootDomain : String
deriving DecidableEq, Repr

/-- `(*Config).Validate` of `pkg/config/config.go` lines 50-70: when not
disabled, each of user id, token, prefix and upstream root domain must be
non-empty, checked in that order; `none` models a nil error. -/
def Config.Validate (c : Config) : Option ConfigError :=
  if !c.Disabled then
    if c.UserID = "" then some .userIDRequired
    else if c.Token = "" then some .tokenRequired
    else if c.Prefix = "" then some .prefixRequired
    else if c.UpstreamRootDomain = "" then some .upstreamRootDomainRequired
    else none
  else none

/-- Which configuration field a validation error names, and that this field is
empty in the given configuration. -/
def ConfigError.namesEmptyField (e : ConfigError) (c : Config) : Prop :=
  match e with
  | .userIDRequired => c.UserID = ""
  | .tokenRequired => c.Token = ""
  | .prefixRequired => c.Prefix = ""
  | .upstreamRootDomainRequired => c.UpstreamRootDomain = ""

/-! ## The `bindings` package (not under `src/`; shapes fixed by its uses in
`cloudflare.go` and by §3 of the specification) -/

/-- Modelled from the spec: an auxiliary file of a function artifact in the
`bindings` package (missing from the sources), "each with a content type, a
file extension, a 'binding name' (the name exposed to the running script),
and a binding kind"; field names follow the accesses `file.Content`,
`file.Extension`, `file.ContentType`, `file.Type`, `file.Binding` in
`cloudflare.go` (`type` stands for Go's `Type`). -/
structure File where
  Content : String
  Extension : String
  ContentType : String
  type : String
  Binding : String
deriving DecidableEq, Repr

/-- Modelled from the spec: a function artifact (`bindings.Function`, missing
from the sources): "an identifier, a primary binary payload, and zero or more
auxiliary files"; field names follow the accesses `function.Identifier`,
`function.Source`, `function.Files` in `cloudflare.go`. -/
structure Function where
  Identifier : String
  Source : String
  Files : List File
deriving DecidableEq, Repr

/-- Modelled from the spec: a scale-function artifact (`bindings.ScaleFunction`,
missing from the sources) as used by the older client variant: an identifier,
an encoded primary payload (`function.ScaleFunction.Encode()` is modelled as
the stored byte string `Encoded`) and a WASM module payload. -/
structure ScaleFunction where
  Identifier : String
  Encoded : String
  WASM : String
deriving DecidableEq, Repr

/-- Modelled from the spec: one entry of the metadata bindings list
(`bindings.Worker`, missing from the sources): binding kind, binding name and
multipart part name (`type` stands for Go's `Type`). -/
structure Worker where
  type : String
  Name : String
  Part : String
deriving DecidableEq, Repr

/-- Modelled from the spec: the metadata manifest (`bindings.Metadata`, missing
from the sources): the body part name and the bindings list. -/
structure Metadata where
  BodyPart : String
  Bindings : List Worker
deriving DecidableEq, Repr

/-- Modelled from the spec: the handle returned after a successful upload
(`bindings.UploadedFunction`, missing from the sources): "identifier plus the
externally reachable subdomain path". -/
structure UploadedFunction where
  Identifier : String
  Subdomain : String
deriving DecidableEq, Repr

/-! ## The response models (`src/unnamed/part_000`, package `models`) -/

/-- `models.ResponseError`: code and human-readable message. -/
structure ResponseError where
  Code : Int
  Message : String
deriving DecidableEq, Repr

/-- `models.ResponseResult`: the result record of the upload envelope. -/
structure ResponseResult where
  Id : String
  CreatedOn : String
  ModifiedOn : String
  Etag : String
  UsageModel : String
  Handlers : List String
  AvailableOnSubdomain : Bool
deriving DecidableEq, Repr

/-- `models.UploadResponse`: the JSON envelope decoded from a 200 upload
response. -/
structure UploadResponse where
  Success : Bool
  Errors : List ResponseError
  Messages : List ResponseError
  Result : ResponseResult
deriving DecidableEq, Repr

/-! ## Multipart bodies -/

/-- One part of a multipart body, as `addPart` in `cloudflare.go` writes it: a
`Content-Disposition` header carrying the part name and filename, a
`Content-Type` header, and the copied content bytes. -/
structure Part where
  name : String
  filename : String
  contentType : String
  content : String
deriving DecidableEq, Repr

/-- `addPart` of `cloudflare.go`: appends one part to the body under
construction.  Writing to an in-memory buffer never fails in Go, so the
embedding is total. -/
def addPart (parts : List Part) (name filename contentType content : String) :
    List Part :=
  parts ++ [⟨name, filename, contentType, content⟩]

/-- Modelled from the spec: `json.Marshal` of a string (JSON tags of the
`bindings` package are not under `src/`); string escaping is not modelled. -/
def jsonStr (s : String) : String := "\"" ++ s ++ "\""

/-- Modelled from the spec: `json.Marshal` of one bindings-list entry, with
fields `type`, `name`, `part` as in §3/§4.3 of the specification. -/
def Worker.marshal (w : Worker) : String :=
  "\x7b\"type\":" ++ jsonStr w.type ++ ",\"name\":" ++ jsonStr w.Name
    ++ ",\"part\":" ++ jsonStr w.Part ++ "\x7d"

/-- Modelled from the spec: `json.Marshal` of the metadata manifest, with
fields `body_part` and `bindings`. -/
def Metadata.marshal (m : Metadata) : String :=
  "\x7b\"body_part\":" ++ jsonStr m.BodyPart ++ ",\"bindings\":["
    ++ String.intercalate "," (m.Bindings.map Worker.marshal) ++ "]\x7d"

/-- The body of the per-function loop of `UploadFunction` (`cloudflare.go`
lines 303-319): one part `<identifier>.bin` with the primary payload, then one
part `<identifier>.<extension>` per auxiliary file, in order. -/
def functionParts (parts : List Part) (f : Function) : List Part :=
  let parts := addPart parts (f.Identifier ++ ".bin") (f.Identifier ++ ".bin")
    "application/octet-stream" f.Source
  f.Files.foldl (fun ps file =>
    addPart ps (f.Identifier ++ "." ++ file.Extension)
      (f.Identifier ++ "." ++ file.Extension) file.ContentType file.Content) parts

/-- The body of the bindings-list loop of `UploadFunction` (`cloudflare.go`
lines 322-336): append the `data_blob` binding `__SF_<identifier>` at part
`<identifier>.bin`, then one binding per auxiliary file. -/
def metadataWorkerStep (ws : List Worker) (f : Function) : List Worker :=
  let ws := ws ++ [⟨"data_blob", "__SF_" ++ f.Identifier, f.Identifier ++ ".bin"⟩]
  f.Files.foldl (fun ws2 file =>
    ws2 ++ [⟨file.type, "__" ++ file.Binding ++ "_" ++ f.Identifier,
      f.Identifier ++ "." ++ file.Extension⟩]) ws

/-- The metadata built by `UploadFunction` (`cloudflare.go` lines 321-341):
`body_part = "worker.js"` and the bindings list accumulated by
`metadataWorkerStep`. -/
def uploadFunctionMetadata (functions : List Function) : Metadata :=
  ⟨"worker.js", functions.foldl metadataWorkerStep []⟩

/-- The multipart body built by `UploadFunction` (`cloudflare.go` lines
295-354): the entry-script part `worker.js`, the per-function parts, and the
final `metadata` part holding the marshalled metadata. -/
def uploadFunctionBody (wrapperScript : String) (functions : List Function) :
    List Part :=
  let parts := addPart [] "worker.js" "worker.js" "application/javascript"
    wrapperScript
  let parts := functions.foldl functionParts parts
  addPart parts "metadata" "metadata.json" "application/json"
    (uploadFunctionMetadata functions).marshal

/-- The body of the per-function loop of `UploadScaleFunction` (`cloudflare.go`
lines 92-106): one part `<identifier>.bin` with the encoded scale function,
then one part `<identifier>.wasm` with the WASM module. -/
def scaleFunctionParts (parts : List Part) (f : ScaleFunction) : List Part :=
  let parts := addPart parts (f.Identifier ++ ".bin") (f.Identifier ++ ".bin")
    "application/octet-stream" f.Encoded
  addPart parts (f.Identifier ++ ".wasm") (f.Identifier ++ ".wasm")
    "application/wasm" f.WASM

/-- The body of the bindings-list loop of `UploadScaleFunction`
(`cloudflare.go` lines 109-120): append the `data_blob` binding for the
encoded scale function, then the `wasm_module` binding. -/
def scaleWorkerStep (ws : List Worker) (f : ScaleFunction) : List Worker :=
  ws ++ [⟨"data_blob", "__SF_" ++ f.Identifier, f.Identifier ++ ".bin"⟩]
    ++ [⟨"wasm_module", "__WASM_" ++ f.Identifier, f.Identifier ++ ".wasm"⟩]

/-- The metadata built by `UploadScaleFunction` (`cloudflare.go` lines
108-125): per function, a `data_blob` binding `__SF_<identifier>` at
`<identifier>.bin` and a `wasm_module` binding `__WASM_<identifier>` at
`<identifier>.wasm`. -/
def uploadScaleMetadata (functions : List ScaleFunction) : Metadata :=
  ⟨"worker.js", functions.foldl scaleWorkerStep []⟩

/-- The multipart body built by `UploadScaleFunction` (`cloudflare.go` lines
84-138). -/
def uploadScaleBody (wrapperScript : String) (functions : List ScaleFunction) :
    List Part :=
  let parts := addPart [] "worker.js" "worker.js" "application/javascript"
    wrapperScript
  let parts := functions.foldl scaleFunctionParts parts
  addPart parts "metadata" "metadata.json" "application/json"
    (uploadScaleMetadata functions).marshal

/-- The number of auxiliary files over all function artifacts (the `M` of the
specification's part-count property). -/
def auxCount (functions : List Function) : Nat :=
  (functions.map fun f => f.Files.length).sum

/-! Shapes of the assembled parts and bindings, used to state what the
sequential loops above produce. -/

/-- The entry-script part `worker.js`. -/
def entryPart (wrapperScript : String) : Part :=
  ⟨"worker.js", "worker.js", "application/javascript", wrapperScript⟩

/-- The primary-blob part of one function artifact. -/
def binPartOf (f : Function) : Part :=
  ⟨f.Identifier ++ ".bin", f.Identifier ++ ".bin", "application/octet-stream",
    f.Source⟩

/-- The part of one auxiliary file of a function artifact. -/
def filePartOf (f : Function) (file : File) : Part :=
  ⟨f.Identifier ++ "." ++ file.Extension, f.Identifier ++ "." ++ file.Extension,
    file.ContentType, file.Content⟩

/-- All parts one function artifact contributes, in order. -/
def partsOf (f : Function) : List Part :=
  binPartOf f :: f.Files.map (filePartOf f)

/-- The `data_blob` binding of one function artifact. -/
def sfWorkerOf (f : Function) : Worker :=
  ⟨"data_blob", "__SF_" ++ f.Identifier, f.Identifier ++ ".bin"⟩

/-- The binding of one auxiliary file of a function artifact. -/
def fileWorkerOf (f : Function) (file : File) : Worker :=
  ⟨file.type, "__" ++ file.Binding ++ "_" ++ f.Identifier,
    f.Identifier ++ "." ++ file.Extension⟩

/-- All bindings one function artifact contributes, in order. -/
def workersOf (f : Function) : List Worker :=
  sfWorkerOf f :: f.Files.map (fileWorkerOf f)

/-- The final `metadata` part of `UploadFunction`'s body. -/
def metadataPartOf (functions : List Function) : Part :=
  ⟨"metadata", "metadata.json", "application/json",
    (uploadFunctionMetadata functions).marshal⟩

/-- All parts one scale-function artifact contributes, in order. -/
def scalePartsOf (f : ScaleFunction) : List Part :=
  [⟨f.Identifier ++ ".bin", f.Identifier ++ ".bin", "application/octet-stream",
      f.Encoded⟩,
    ⟨f.Identifier ++ ".wasm", f.Identifier ++ ".wasm", "application/wasm",
      f.WASM⟩]

/-- All bindings one scale-function artifact contributes, in order. -/
def scaleWorkersOf (f : ScaleFunction) : List Worker :=
  [⟨"data_blob", "__SF_" ++ f.Identifier, f.Identifier ++ ".bin"⟩,
    ⟨"wasm_module", "__WASM_" ++ f.Identifier, f.Identifier ++ ".wasm"⟩]

/-- The final `metadata` part of `UploadScaleFunction`'s body. -/
def scaleMetadataPartOf (functions : List ScaleFunction) : Part :=
  ⟨"metadata", "metadata.json", "application/json",
    (uploadScaleMetadata functions).marshal⟩

/-! ## HTTP model -/

/-- The HTTP methods this client issues. -/
inductive Method where
  | PUT
  | POST
  | DELETE
deriving DecidableEq, Repr, BEq

/-- A request body: absent (`DELETE`), a plain string (the subdomain `POST`),
or a multipart body (the upload `PUT`). -/
inductive ReqBody where
  | empty
  | str (s : String)
  | multipart (parts : List Part)
deriving DecidableEq, Repr

/-- An HTTP request as this client assembles one: method, URL, the headers in
the order `req.Header.Add` adds them, and the body. -/
structure Request where
  method : Method
  url : String
  headers : List (String × String)
  body : ReqBody
deriving DecidableEq, Repr

/-- An HTTP response as this client consumes one: `resp.StatusCode`,
`resp.Status`, and the body bytes. -/
structure Response where
  statusCode : Nat
  status : String
  body : String
deriving DecidableEq, Repr

/-- A network: a total function from the request issued to the response
received.  Transport-level failures are not modelled; every claim below is
about calls whose requests receive responses. -/
def Network : Type := Request → Response

/-! ## Client construction (`cloudflare.go`) -/

/-- A parsed URL.  Go's `url.Parse` is modelled as retaining the raw text. -/
structure URL where
  raw : String
deriving DecidableEq, Repr

/-- Model of `(*url.URL).String()`: the raw text is printed back verbatim
(re-encoding of characters that Go would percent-escape is not modelled). -/
def URL.toStr (u : URL) : String := u.raw

/-- Model of Go's `url.Parse`: fails when the string holds an ASCII control
character (Go reports `net/url: invalid control character in URL`), otherwise
retains the raw text. -/
def urlParse (s : String) : Except String URL :=
  if s.toList.any (fun c => decide (c.toNat < 32 ∨ c.toNat = 127)) then
    .error "net/url: invalid control character in URL"
  else .ok ⟨s⟩

/-- The `Options` struct of the newer client variant (`cloudflare.go` lines
238-245). -/
structure Options where
  LogName : String
  Disabled : Bool
  UserID : String
  Token : String
  Prefix : String
  UpstreamRootDomain : String
deriving DecidableEq, Repr

/-- The errors `New` of the newer variant can return: the distinguished
`ErrDisabled` (`cloudflare.go` line 235), or a URL-parse error. -/
inductive NewError where
  | disabled
  | parseError (msg : String)
deriving DecidableEq, Repr

/-- The `Cloudflare` struct (`cloudflare.go` lines 247-257): the retained
options, the parsed base URL and the precomputed authorization header (logger,
context, cancel and wait group carry no data the operations read). -/
structure Cloudflare where
  options : Options
  workerURL : URL
  authorizationHeader : String
deriving DecidableEq, Repr

/-- `New` of the newer variant (`cloudflare.go` lines 259-285): fail with the
disabled error when `options.Disabled` is set, otherwise parse the base URL
`https://api.cloudflare.com/client/v4/accounts/<UserID>/workers/scripts` and
precompute the header `Bearer <Token>`. -/
def New (options : Options) : Except NewError Cloudflare :=
  if options.Disabled then .error .disabled
  else
    match urlParse ("https://api.cloudflare.com/client/v4/accounts/"
        ++ options.UserID ++ "/workers/scripts") with
    | .error e => .error (.parseError e)
    | .ok workerURL => .ok ⟨options, workerURL, "Bearer " ++ options.Token⟩

/-- The `Options` struct of the older client variant (`cloudflare.go` lines
35-40): no `Disabled`, no `UpstreamRootDomain`. -/
structure ClientOptions where
  LogName : String
  UserID : String
  Token : String
  Prefix : String
deriving DecidableEq, Repr

/-- The `Client` struct of the older variant (`cloudflare.go` lines 42-50). -/
structure Client where
  options : ClientOptions
  workerURL : URL
  authorizationHeader : String
deriving DecidableEq, Repr

/-- `New` of the older variant (`cloudflare.go` lines 52-74): same base URL
and header computation, no disabled check. -/
def clientNew (options : ClientOptions) : Except String Client :=
  match urlParse ("https://api.cloudflare.com/client/v4/accounts/"
      ++ options.UserID ++ "/workers/scripts") with
  | .error e => .error e
  | .ok workerURL => .ok ⟨options, workerURL, "Bearer " ++ options.Token⟩

/-! ## Operations

Go's multipart writer draws a random boundary; it is threaded through as the
`boundary` parameter.  `json.NewDecoder(resp.Body).Decode` on the 200 body is
threaded through as the `decode` parameter.  Each operation returns its
result together with the ordered list of HTTP requests it issued. -/

/-- The errors an upload can surface, with the data each `fmt.Errorf` embeds:
a non-200 status with `resp.StatusCode`, `resp.Status` and the response body;
a decode failure; an envelope with `success=false` carrying `res.Errors`; a
non-200 status on the subdomain `POST`. -/
inductive UploadError where
  | uploadStatus (code : Nat) (status : String) (body : String)
  | decodeFailure (msg : String)
  | apiFailure (errs : List ResponseError)
  | subdomainStatus (code : Nat) (status : String) (body : String)
deriving DecidableEq, Repr

/-- The error a delete can surface: a non-200 status with code, status text
and response body. -/
inductive DeleteError where
  | deleteStatus (code : Nat) (status : String) (body : String)
deriving DecidableEq, Repr

/-- The `PUT` request `UploadFunction` issues (`cloudflare.go` lines 356-362):
URL `<base>/<Prefix><identifier>?include_subdomain_availability=true&excludeScript=true`,
the multipart content type with the writer's boundary, the bearer header, and
the multipart body. -/
def uploadPutRequest (c : Cloudflare) (identifier wrapperScript : String)
    (functions : List Function) (boundary : String) : Request :=
  { method := .PUT
    url := c.workerURL.toStr ++ "/" ++ c.options.Prefix ++ identifier
      ++ "?include_subdomain_availability=true&excludeScript=true"
    headers := [("Content-Type", "multipart/form-data; boundary=" ++ boundary),
      ("Authorization", c.authorizationHeader)]
    body := .multipart (uploadFunctionBody wrapperScript functions) }

/-- The follow-up `POST` `UploadFunction` issues when the script is not yet
available on the subdomain (`cloudflare.go` lines 384-390). -/
def subdomainPostRequest (c : Cloudflare) (identifier : String) : Request :=
  { method := .POST
    url := c.workerURL.toStr ++ "/" ++ c.options.Prefix ++ identifier
      ++ "/subdomain"
    headers := [("Content-Type", "application/json"),
      ("Authorization", c.authorizationHeader)]
    body := .str "\x7b\"enabled\": true\x7d" }

/-- `UploadFunction` (`cloudflare.go` lines 294-408): build the multipart
body, `PUT` it; on non-200 fail with status and body; on 200 decode the
envelope; fail with the error list when `success` is false; when the script
is not yet available on the subdomain, `POST` the enable request and fail on
its non-200; otherwise return the handle `⟨identifier, Prefix ++ identifier⟩`. -/
def UploadFunction (c : Cloudflare) (identifier wrapperScript : String)
    (functions : List Function) (boundary : String) (net : Network)
    (decode : String → Except String UploadResponse) :
    Except UploadError UploadedFunction × List Request :=
  let putReq := uploadPutRequest c identifier wrapperScript functions boundary
  let resp := net putReq
  if resp.statusCode ≠ 200 then
    (.error (.uploadStatus resp.statusCode resp.status resp.body), [putReq])
  else
    match decode resp.body with
    | .error e => (.error (.decodeFailure e), [putReq])
    | .ok res =>
      if !res.Success then (.error (.apiFailure res.Errors), [putReq])
      else if !res.Result.AvailableOnSubdomain then
        let postReq := subdomainPostRequest c identifier
        let resp2 := net postReq
        if resp2.statusCode ≠ 200 then
          (.error (.subdomainStatus resp2.statusCode resp2.status resp2.body),
            [putReq, postReq])
        else
          (.ok ⟨identifier, c.options.Prefix ++ identifier⟩, [putReq, postReq])
      else (.ok ⟨identifier, c.options.Prefix ++ identifier⟩, [putReq])

/-- The `PUT` request `UploadScaleFunction` issues (`cloudflare.go` lines
140-146), identical in shape to the newer variant's. -/
def uploadScalePutRequest (c : Client) (identifier wrapperScript : String)
    (functions : List ScaleFunction) (boundary : String) : Request :=
  { method := .PUT
    url := c.workerURL.toStr ++ "/" ++ c.options.Prefix ++ identifier
      ++ "?include_subdomain_availability=true&excludeScript=true"
    headers := [("Content-Type", "multipart/form-data; boundary=" ++ boundary),
      ("Authorization", c.authorizationHeader)]
    body := .multipart (uploadScaleBody wrapperScript functions) }

/-- `UploadScaleFunction` (`cloudflare.go` lines 83-165): build the multipart
body, `PUT` it; on non-200 fail with status and body; on 200 decode the
envelope and return it — the decoded envelope is returned whether or not its
`Success` field is set, and no subdomain request is ever issued. -/
def UploadScaleFunction (c : Client) (identifier wrapperScript : String)
    (functions : List ScaleFunction) (boundary : String) (net : Network)
    (decode : String → Except String UploadResponse) :
    Except UploadError UploadResponse × List Request :=
  let putReq := uploadScalePutRequest c identifier wrapperScript functions
    boundary
  let resp := net putReq
  if resp.statusCode ≠ 200 then
    (.error (.uploadStatus resp.statusCode resp.status resp.body), [putReq])
  else
    match decode resp.body with
    | .error e => (.error (.decodeFailure e), [putReq])
    | .ok res => (.ok res, [putReq])

/-- The `DELETE` request `DeleteFunction` issues (`cloudflare.go` lines
411-416): URL `<base>/<Prefix><identifier>`, only the bearer header, no
body. -/
def deleteFunctionRequest (c : Cloudflare) (identifier : String) : Request :=
  { method := .DELETE
    url := c.workerURL.toStr ++ "/" ++ c.options.Prefix ++ identifier
    headers := [("Authorization", c.authorizationHeader)]
    body := .empty }

/-- `DeleteFunction` (`cloudflare.go` lines 410-429): issue the `DELETE`; on
non-200 fail with status and body, on 200 return success (`none` models the
nil error). -/
def DeleteFunction (c : Cloudflare) (identifier : String) (net : Network) :
    Option DeleteError × List Request :=
  let req := deleteFunctionRequest c identifier
  let resp := net req
  if resp.statusCode ≠ 200 then
    (some (.deleteStatus resp.statusCode resp.status resp.body), [req])
  else (none, [req])

/-- The `DELETE` request `DeleteScaleFunction` issues (`cloudflare.go` lines
168-173). -/
def deleteScaleRequest (c : Client) (identifier : String) : Request :=
  { method := .DELETE
    url := c.workerURL.toStr ++ "/" ++ c.options.Prefix ++ identifier
    headers := [("Authorization", c.authorizationHeader)]
    body := .empty }

/-- `DeleteScaleFunction` (`cloudflare.go` lines 167-186), identical in shape
to the newer variant's delete. -/
def DeleteScaleFunction (c : Client) (identifier : String) (net : Network) :
    Option DeleteError × List Request :=
  let req := deleteScaleRequest c identifier
  let resp := net req
  if resp.statusCode ≠ 200 then
    (some (.deleteStatus resp.statusCode resp.status resp.body), [req])
  else (none, [req])

end CF

/-! ## Theorems on configuration validation -/

/-- C4: validation succeeds when disabled regardless of other fields; when not
disabled it fails with a "required" error naming an empty field whenever one
of the four required fields is empty, and succeeds when all four are
non-empty. -/
theorem CF.claim_C4 (c : CF.Config) :
    (c.Disabled = true → c.Validate = none)
    ∧ (c.Disabled = false →
        (((c.UserID = "" ∨ c.Token = "" ∨ c.Prefix = "" ∨ c.UpstreamRootDomain = "") →
            ∃ e, c.Validate = some e ∧ e.namesEmptyField c)
          ∧ ((c.UserID ≠ "" ∧ c.Token ≠ "" ∧ c.Prefix ≠ "" ∧ c.UpstreamRootDomain ≠ "") →
            c.Validate = none))) := by
  refine ⟨fun hd => by simp [Config.Validate, hd], fun hd => ⟨fun hempty => ?_, fun hall => ?_⟩⟩
  · by_cases h1 : c.UserID = ""
    · exact ⟨.userIDRequired, by simp [Config.Validate, hd, h1], h1⟩
    · by_cases h2 : c.Token = ""
      · exact ⟨.tokenRequired, by simp [Config.Validate, hd, h1, h2], h2⟩
      · by_cases h3 : c.Prefix = ""
        · exact ⟨.prefixRequired, by simp [Config.Validate, hd, h1, h2, h3], h3⟩
        · by_cases h4 : c.UpstreamRootDomain = ""
          · exact ⟨.upstreamRootDomainRequired,
              by simp [Config.Validate, hd, h1, h2, h3, h4], h4⟩
          · rcases hempty with h | h | h | h <;> [exact absurd h h1; exact absurd h h2;
              exact absurd h h3; exact absurd h h4]
  · simp [Config.Validate, hd, hall.1, hall.2.1, hall.2.2.1, hall.2.2.2]

/-- C4 witness: a disabled configuration with every field empty validates, and
a non-disabled configuration with an empty user id fails naming an empty
field. -/
theorem CF.claim_C4_witness :
    CF.Config.Validate ⟨true, "", "", "", ""⟩ = none
    ∧ ∃ e, CF.Config.Validate ⟨false, "", "x", "y", "z"⟩ = some e
        ∧ e.namesEmptyField ⟨false, "", "x", "y", "z"⟩ :=
  ⟨(CF.claim_C4 _).1 rfl, ((CF.claim_C4 _).2 rfl).1 (Or.inl rfl)⟩

/-- C10: for a non-disabled configuration the returned error follows the fixed
precedence order user id, token, prefix, upstream root domain: the error of
the first empty field in that order is returned. -/
theorem CF.claim_C10 (c : CF.Config) (hd : c.Disabled = false) :
    (c.UserID = "" → c.Validate = some .userIDRequired)
    ∧ (c.UserID ≠ "" → c.Token = "" → c.Validate = some .tokenRequired)
    ∧ (c.UserID ≠ "" → c.Token ≠ "" → c.Prefix = "" →
        c.Validate = some .prefixRequired)
    ∧ (c.UserID ≠ "" → c.Token ≠ "" → c.Prefix ≠ "" → c.UpstreamRootDomain = "" →
        c.Validate = some .upstreamRootDomainRequired) := by
  refine ⟨fun h1 => by simp [Config.Validate, hd, h1],
    fun h1 h2 => by simp [Config.Validate, hd, h1, h2],
    fun h1 h2 h3 => by simp [Config.Validate, hd, h1, h2, h3],
    fun h1 h2 h3 h4 => by simp [Config.Validate, hd, h1, h2, h3, h4]⟩

/-- C10 witness: with both user id and token empty (prefix and domain
non-empty), validation returns the user-id-required error. -/
theorem CF.claim_C10_witness :
    CF.Config.Validate ⟨false, "", "", "p", "d"⟩ = some .userIDRequired :=
  (CF.claim_C10 _ rfl).1 rfl

/-! ## Shape lemmas for the multipart loops -/

/-- The auxiliary-file loop of `functionParts` appends one part per file. -/
theorem CF.filesFold_parts (f : CF.Function) (files : List CF.File)
    (init : List CF.Part) :
    files.foldl (fun ps file =>
      CF.addPart ps (f.Identifier ++ "." ++ file.Extension)
        (f.Identifier ++ "." ++ file.Extension) file.ContentType file.Content)
      init = init ++ files.map (CF.filePartOf f) := by
  induction files generalizing init with
  | nil => simp
  | cons a l ih =>
    rw [List.foldl_cons, ih]
    simp [CF.addPart, CF.filePartOf]

/-- One iteration of `UploadFunction`'s part loop contributes `partsOf`. -/
theorem CF.functionParts_eq (parts : List CF.Part) (f : CF.Function) :
    CF.functionParts parts f = parts ++ CF.partsOf f := by
  simp only [CF.functionParts]
  rw [CF.filesFold_parts]
  simp [CF.addPart, CF.partsOf, CF.binPartOf]

/-- The part loop of `UploadFunction` appends each artifact's parts. -/
theorem CF.bodyFold_parts (functions : List CF.Function)
    (init : List CF.Part) :
    functions.foldl CF.functionParts init
      = init ++ functions.flatMap CF.partsOf := by
  induction functions generalizing init with
  | nil => simp
  | cons f l ih => simp [CF.functionParts_eq, ih]

/-- The multipart body of `UploadFunction`, part by part. -/
theorem CF.uploadFunctionBody_eq (wrapperScript : String)
    (functions : List CF.Function) :
    CF.uploadFunctionBody wrapperScript functions
      = CF.entryPart wrapperScript
          :: (functions.flatMap CF.partsOf ++ [CF.metadataPartOf functions]) := by
  simp [CF.uploadFunctionBody, CF.addPart, CF.bodyFold_parts, CF.entryPart,
    CF.metadataPartOf]

/-- The auxiliary-file loop of `metadataWorkerStep` appends one binding per
file. -/
theorem CF.metaFilesFold (f : CF.Function) (files : List CF.File)
    (init : List CF.Worker) :
    files.foldl (fun ws2 file =>
      ws2 ++ [⟨file.type, "__" ++ file.Binding ++ "_" ++ f.Identifier,
        f.Identifier ++ "." ++ file.Extension⟩]) init
      = init ++ files.map (CF.fileWorkerOf f) := by
  induction files generalizing init with
  | nil => simp
  | cons a l ih => simp [ih, CF.fileWorkerOf]

/-- One iteration of `UploadFunction`'s bindings loop contributes
`workersOf`. -/
theorem CF.metadataWorkerStep_eq (ws : List CF.Worker) (f : CF.Function) :
    CF.metadataWorkerStep ws f = ws ++ CF.workersOf f := by
  simp only [CF.metadataWorkerStep, CF.metaFilesFold, CF.workersOf,
    CF.sfWorkerOf, List.append_assoc, List.singleton_append]

/-- The bindings loop of `UploadFunction` appends each artifact's bindings. -/
theorem CF.metaFold (functions : List CF.Function) (init : List CF.Worker) :
    functions.foldl CF.metadataWorkerStep init
      = init ++ functions.flatMap CF.workersOf := by
  induction functions generalizing init with
  | nil => simp
  | cons f l ih => simp [CF.metadataWorkerStep_eq, ih]

/-- The bindings list of `UploadFunction`'s metadata. -/
theorem CF.uploadFunctionMetadata_bindings (functions : List CF.Function) :
    (CF.uploadFunctionMetadata functions).Bindings
      = functions.flatMap CF.workersOf := by
  simp [CF.uploadFunctionMetadata, CF.metaFold]

/-- One iteration of `UploadScaleFunction`'s part loop contributes
`scalePartsOf`. -/
theorem CF.scaleFunctionParts_eq (parts : List CF.Part) (f : CF.ScaleFunction) :
    CF.scaleFunctionParts parts f = parts ++ CF.scalePartsOf f := by
  simp [CF.scaleFunctionParts, CF.addPart, CF.scalePartsOf]

/-- The part loop of `UploadScaleFunction` appends each artifact's parts. -/
theorem CF.scaleBodyFold (functions : List CF.ScaleFunction)
    (init : List CF.Part) :
    functions.foldl CF.scaleFunctionParts init
      = init ++ functions.flatMap CF.scalePartsOf := by
  induction functions generalizing init with
  | nil => simp
  | cons f l ih => simp [CF.scaleFunctionParts_eq, ih]

/-- The multipart body of `UploadScaleFunction`, part by part. -/
theorem CF.uploadScaleBody_eq (wrapperScript : String)
    (functions : List CF.ScaleFunction) :
    CF.uploadScaleBody wrapperScript functions
      = CF.entryPart wrapperScript
          :: (functions.flatMap CF.scalePartsOf
              ++ [CF.scaleMetadataPartOf functions]) := by
  simp [CF.uploadScaleBody, CF.addPart, CF.scaleBodyFold, CF.entryPart,
    CF.scaleMetadataPartOf]

/-- One iteration of `UploadScaleFunction`'s bindings loop contributes
`scaleWorkersOf`. -/
theorem CF.scaleWorkerStep_eq (ws : List CF.Worker) (f : CF.ScaleFunction) :
    CF.scaleWorkerStep ws f = ws ++ CF.scaleWorkersOf f := by
  simp [CF.scaleWorkerStep, CF.scaleWorkersOf]

/-- The bindings list of `UploadScaleFunction`'s metadata. -/
theorem CF.uploadScaleMetadata_bindings (functions : List CF.ScaleFunction) :
    (CF.uploadScaleMetadata functions).Bindings
      = functions.flatMap CF.scaleWorkersOf := by
  have h : ∀ (l : List CF.ScaleFunction) (init : List CF.Worker),
      l.foldl CF.scaleWorkerStep init = init ++ l.flatMap CF.scaleWorkersOf := by
    intro l
    induction l with
    | nil => simp
    | cons f t ih => intro init; simp [CF.scaleWorkerStep_eq, ih]
  simp [CF.uploadScaleMetadata, h]

/-- The part names one artifact contributes. -/
theorem CF.partsOf_names (f : CF.Function) :
    (CF.partsOf f).map CF.Part.name
      = (f.Identifier ++ ".bin")
          :: f.Files.map (fun file => f.Identifier ++ "." ++ file.Extension) := by
  simp [CF.partsOf, CF.binPartOf, CF.filePartOf, List.map_map, Function.comp_def]

/-- The binding part names one artifact contributes: the same list. -/
theorem CF.workersOf_parts (f : CF.Function) :
    (CF.workersOf f).map CF.Worker.Part
      = (f.Identifier ++ ".bin")
          :: f.Files.map (fun file => f.Identifier ++ "." ++ file.Extension) := by
  simp [CF.workersOf, CF.sfWorkerOf, CF.fileWorkerOf, List.map_map,
    Function.comp_def]

/-- The length of one artifact's part contribution. -/
theorem CF.flatMap_partsOf_length (functions : List CF.Function) :
    (functions.flatMap CF.partsOf).length
      = functions.length + CF.auxCount functions := by
  induction functions with
  | nil => simp [CF.auxCount]
  | cons f l ih =>
    simp only [List.flatMap_cons, List.length_append, ih, CF.auxCount,
      List.map_cons, List.sum_cons, CF.partsOf, List.length_cons,
      List.length_map]
    omega

/-- The length of the bindings list equals the part-contribution length. -/
theorem CF.flatMap_workersOf_length (functions : List CF.Function) :
    (functions.flatMap CF.workersOf).length
      = functions.length + CF.auxCount functions := by
  induction functions with
  | nil => simp [CF.auxCount]
  | cons f l ih =>
    simp only [List.flatMap_cons, List.length_append, ih, CF.auxCount,
      List.map_cons, List.sum_cons, CF.workersOf, List.length_cons,
      List.length_map]
    omega

/-- C1: for both upload variants, given N artifacts with M total auxiliary
files the multipart body has exactly 1 + N + M + 1 parts (entry script,
primary blobs, auxiliary files, metadata), the metadata's bindings list has
exactly N + M entries, and the bindings' `part` fields are exactly the names
of the non-entry-script, non-metadata parts, in order (an order-preserving
bijection).  For the scale variant each artifact carries exactly one
auxiliary file (its WASM module), so M = N. -/
theorem CF.claim_C1 (wrapperScript : String) (functions : List CF.Function)
    (scaleFunctions : List CF.ScaleFunction) :
    (CF.uploadFunctionBody wrapperScript functions).length
        = 1 + functions.length + CF.auxCount functions + 1
    ∧ (CF.uploadFunctionMetadata functions).Bindings.length
        = functions.length + CF.auxCount functions
    ∧ (CF.uploadFunctionMetadata functions).Bindings.map CF.Worker.Part
        = (((CF.uploadFunctionBody wrapperScript functions).drop 1).dropLast).map
            CF.Part.name
    ∧ (CF.uploadScaleBody wrapperScript scaleFunctions).length
        = 1 + scaleFunctions.length + scaleFunctions.length + 1
    ∧ (CF.uploadScaleMetadata scaleFunctions).Bindings.length
        = scaleFunctions.length + scaleFunctions.length
    ∧ (CF.uploadScaleMetadata scaleFunctions).Bindings.map CF.Worker.Part
        = (((CF.uploadScaleBody wrapperScript scaleFunctions).drop 1).dropLast).map
            CF.Part.name := by
  refine ⟨?_, ?_, ?_, ?_, ?_, ?_⟩
  · rw [CF.uploadFunctionBody_eq]
    simp only [List.length_cons, List.length_append, List.length_nil,
      CF.flatMap_partsOf_length]
    omega
  · rw [CF.uploadFunctionMetadata_bindings, CF.flatMap_workersOf_length]
  · rw [CF.uploadFunctionBody_eq, CF.uploadFunctionMetadata_bindings]
    simp only [List.drop_succ_cons, List.drop_zero, List.dropLast_concat,
      List.map_flatMap]
    simp [CF.partsOf_names, CF.workersOf_parts]
  · rw [CF.uploadScaleBody_eq]
    have h : ∀ l : List CF.ScaleFunction,
        (l.flatMap CF.scalePartsOf).length = l.length + l.length := by
      intro l
      induction l with
      | nil => simp
      | cons f t ih => simp [CF.scalePartsOf, ih]; omega
    simp [h]
    omega
  · rw [CF.uploadScaleMetadata_bindings]
    induction scaleFunctions with
    | nil => simp
    | cons f t ih => simp [CF.scaleWorkersOf, ih]; omega
  · rw [CF.uploadScaleBody_eq, CF.uploadScaleMetadata_bindings]
    simp only [List.drop_succ_cons, List.drop_zero, List.dropLast_concat,
      List.map_flatMap]
    simp [CF.scalePartsOf, CF.scaleWorkersOf]

/-- C2: for both upload variants the metadata has `body_part = "worker.js"`
and its bindings list holds, per artifact, one `data_blob` binding named
`__SF_<identifier>` at part `<identifier>.bin` followed by, per auxiliary
file, one binding of the file's declared kind named
`__<bindingName>_<identifier>` at part `<identifier>.<extension>` (for the
scale variant: the `wasm_module` binding `__WASM_<identifier>` at
`<identifier>.wasm`). -/
theorem CF.claim_C2 (functions : List CF.Function)
    (scaleFunctions : List CF.ScaleFunction) :
    (CF.uploadFunctionMetadata functions).BodyPart = "worker.js"
    ∧ (CF.uploadFunctionMetadata functions).Bindings
        = functions.flatMap (fun f =>
            ⟨"data_blob", "__SF_" ++ f.Identifier, f.Identifier ++ ".bin"⟩
              :: f.Files.map (fun file =>
                (⟨file.type, "__" ++ file.Binding ++ "_" ++ f.Identifier,
                  f.Identifier ++ "." ++ file.Extension⟩ : CF.Worker)))
    ∧ (CF.uploadScaleMetadata scaleFunctions).BodyPart = "worker.js"
    ∧ (CF.uploadScaleMetadata scaleFunctions).Bindings
        = scaleFunctions.flatMap (fun f =>
            [⟨"data_blob", "__SF_" ++ f.Identifier, f.Identifier ++ ".bin"⟩,
              ⟨"wasm_module", "__WASM_" ++ f.Identifier,
                f.Identifier ++ ".wasm"⟩]) := by
  refine ⟨rfl, ?_, rfl, ?_⟩
  · rw [CF.uploadFunctionMetadata_bindings]
    have h : CF.workersOf = fun f : CF.Function =>
        (⟨"data_blob", "__SF_" ++ f.Identifier, f.Identifier ++ ".bin"⟩ : CF.Worker)
          :: f.Files.map (fun file =>
            (⟨file.type, "__" ++ file.Binding ++ "_" ++ f.Identifier,
              f.Identifier ++ "." ++ file.Extension⟩ : CF.Worker)) := by
      funext f
      simp [CF.workersOf, CF.sfWorkerOf, CF.fileWorkerOf]
    rw [h]
  · rw [CF.uploadScaleMetadata_bindings]
    have h : CF.scaleWorkersOf = fun f : CF.ScaleFunction =>
        [(⟨"data_blob", "__SF_" ++ f.Identifier, f.Identifier ++ ".bin"⟩ : CF.Worker),
          ⟨"wasm_module", "__WASM_" ++ f.Identifier, f.Identifier ++ ".wasm"⟩] := by
      funext f
      simp [CF.scaleWorkersOf]
    rw [h]

/-! ## Client construction and request-shape claims -/

/-- C3: for every options record with the disabled flag set, `New` fails with
the distinguished `ErrDisabled` and produces no client, regardless of the
other fields. -/
theorem CF.claim_C3 (options : CF.Options) (h : options.Disabled = true) :
    CF.New options = .error .disabled := by
  simp [CF.New, h]

/-- C3 witness: a disabled options record with all other fields populated. -/
theorem CF.claim_C3_witness :
    CF.New ⟨"log", true, "user", "token", "pre", "dom"⟩ = .error .disabled :=
  CF.claim_C3 ⟨"log", true, "user", "token", "pre", "dom"⟩ rfl

/-- A successful `urlParse` retains the raw text. -/
theorem CF.urlParse_ok {s : String} {u : CF.URL}
    (h : CF.urlParse s = .ok u) : u = ⟨s⟩ := by
  unfold CF.urlParse at h
  split at h
  · exact absurd h (by simp)
  · injection h with h
    exact h.symm

/-- A successfully constructed `Cloudflare` client is exactly the retained
options, the concatenated base URL and the precomputed bearer header. -/
theorem CF.New_ok {options : CF.Options} {c : CF.Cloudflare}
    (h : CF.New options = .ok c) :
    c = ⟨options,
      ⟨"https://api.cloudflare.com/client/v4/accounts/" ++ options.UserID
        ++ "/workers/scripts"⟩,
      "Bearer " ++ options.Token⟩ := by
  unfold CF.New at h
  split at h
  · exact absurd h (by simp)
  · revert h
    cases hu : CF.urlParse ("https://api.cloudflare.com/client/v4/accounts/"
        ++ options.UserID ++ "/workers/scripts") with
    | error e => intro h; exact absurd h (by simp)
    | ok u =>
      intro h
      injection h with h
      rw [← h, CF.urlParse_ok hu]

/-- The first request any upload issues is its `PUT`. -/
theorem CF.uploadFunction_head (c : CF.Cloudflare)
    (identifier wrapperScript boundary : String) (functions : List CF.Function)
    (net : CF.Network) (decode : String → Except String CF.UploadResponse) :
    (CF.UploadFunction c identifier wrapperScript functions boundary net
        decode).2.head?
      = some (CF.uploadPutRequest c identifier wrapperScript functions
          boundary) := by
  simp only [CF.UploadFunction]
  split
  · rfl
  · split
    · rfl
    · split
      · rfl
      · split
        · split
          · rfl
          · rfl
        · rfl

/-- C9: a successfully constructed client carries the base URL
`https://api.cloudflare.com/client/v4/accounts/<UserID>/workers/scripts` and
the header `Bearer <Token>`, and every upload issues its `PUT` first, to
`<base-url>/<Prefix><identifier>?include_subdomain_availability=true&excludeScript=true`
with the multipart content type and the bearer header. -/
theorem CF.claim_C9 (options : CF.Options) (c : CF.Cloudflare)
    (h : CF.New options = .ok c)
    (identifier wrapperScript boundary : String)
    (functions : List CF.Function) :
    c.workerURL.toStr
        = "https://api.cloudflare.com/client/v4/accounts/" ++ options.UserID
          ++ "/workers/scripts"
    ∧ c.authorizationHeader = "Bearer " ++ options.Token
    ∧ (CF.uploadPutRequest c identifier wrapperScript functions boundary).method
        = .PUT
    ∧ (CF.uploadPutRequest c identifier wrapperScript functions boundary).url
        = c.workerURL.toStr ++ "/" ++ options.Prefix ++ identifier
          ++ "?include_subdomain_availability=true&excludeScript=true"
    ∧ (CF.uploadPutRequest c identifier wrapperScript functions boundary).headers
        = [("Content-Type", "multipart/form-data; boundary=" ++ boundary),
          ("Authorization", c.authorizationHeader)]
    ∧ ∀ (net : CF.Network) (decode : String → Except String CF.UploadResponse),
        (CF.UploadFunction c identifier wrapperScript functions boundary net
            decode).2.head?
          = some (CF.uploadPutRequest c identifier wrapperScript functions
              boundary) := by
  rw [CF.New_ok h]
  exact ⟨rfl, rfl, rfl, rfl, rfl, fun net decode =>
    CF.uploadFunction_head _ identifier wrapperScript boundary functions net
      decode⟩

/-- C9 witness: the client constructed from a concrete options record. -/
theorem CF.claim_C9_witness :
    (⟨⟨"log", false, "user", "token", "pre", "dom"⟩,
      ⟨"https://api.cloudflare.com/client/v4/accounts/user/workers/scripts"⟩,
      "Bearer token"⟩ : CF.Cloudflare).workerURL.toStr
        = "https://api.cloudflare.com/client/v4/accounts/user/workers/scripts"
    ∧ (⟨⟨"log", false, "user", "token", "pre", "dom"⟩,
      ⟨"https://api.cloudflare.com/client/v4/accounts/user/workers/scripts"⟩,
      "Bearer token"⟩ : CF.Cloudflare).authorizationHeader = "Bearer token" := by
  have h := CF.claim_C9 ⟨"log", false, "user", "token", "pre", "dom"⟩
    ⟨⟨"log", false, "user", "token", "pre", "dom"⟩,
      ⟨"https://api.cloudflare.com/client/v4/accounts/user/workers/scripts"⟩,
      "Bearer token"⟩ (by rfl) "fn1" "ws" "bnd" []
  exact ⟨h.1, h.2.1⟩

/-! ## Delete claims -/

/-- C8: for both variants, the delete call issues exactly one `DELETE` to
`<base-url>/<Prefix><identifier>` carrying only the bearer header; a non-200
response fails with an error embedding the status code, status text and
response body, and a 200 response returns success with no payload. -/
theorem CF.claim_C8 (c : CF.Cloudflare) (cl : CF.Client) (identifier : String)
    (net : CF.Network) :
    (CF.DeleteFunction c identifier net).2 = [CF.deleteFunctionRequest c identifier]
    ∧ (CF.deleteFunctionRequest c identifier).method = .DELETE
    ∧ (CF.deleteFunctionRequest c identifier).url
        = c.workerURL.toStr ++ "/" ++ c.options.Prefix ++ identifier
    ∧ (CF.deleteFunctionRequest c identifier).headers
        = [("Authorization", c.authorizationHeader)]
    ∧ ((net (CF.deleteFunctionRequest c identifier)).statusCode ≠ 200 →
        (CF.DeleteFunction c identifier net).1
          = some (.deleteStatus
              (net (CF.deleteFunctionRequest c identifier)).statusCode
              (net (CF.deleteFunctionRequest c identifier)).status
              (net (CF.deleteFunctionRequest c identifier)).body))
    ∧ ((net (CF.deleteFunctionRequest c identifier)).statusCode = 200 →
        (CF.DeleteFunction c identifier net).1 = none)
    ∧ (CF.DeleteScaleFunction cl identifier net).2
        = [CF.deleteScaleRequest cl identifier]
    ∧ (CF.deleteScaleRequest cl identifier).method = .DELETE
    ∧ (CF.deleteScaleRequest cl identifier).url
        = cl.workerURL.toStr ++ "/" ++ cl.options.Prefix ++ identifier
    ∧ (CF.deleteScaleRequest cl identifier).headers
        = [("Authorization", cl.authorizationHeader)]
    ∧ ((net (CF.deleteScaleRequest cl identifier)).statusCode ≠ 200 →
        (CF.DeleteScaleFunction cl identifier net).1
          = some (.deleteStatus
              (net (CF.deleteScaleRequest cl identifier)).statusCode
              (net (CF.deleteScaleRequest cl identifier)).status
              (net (CF.deleteScaleRequest cl identifier)).body))
    ∧ ((net (CF.deleteScaleRequest cl identifier)).statusCode = 200 →
        (CF.DeleteScaleFunction cl identifier net).1 = none) := by
  refine ⟨?_, rfl, rfl, rfl, fun h => ?_, fun h => ?_, ?_, rfl, rfl, rfl,
    fun h => ?_, fun h => ?_⟩
  · simp only [CF.DeleteFunction]
    split <;> rfl
  · simp [CF.DeleteFunction, h]
  · simp [CF.DeleteFunction, h]
  · simp only [CF.DeleteScaleFunction]
    split <;> rfl
  · simp [CF.DeleteScaleFunction, h]
  · simp [CF.DeleteScaleFunction, h]

/-- C8 witness: deleting `fn1` against a remote answering 200 returns no
error. -/
theorem CF.claim_C8_witness :
    (CF.DeleteFunction
        ⟨⟨"log", false, "user", "token", "pre", "dom"⟩,
          ⟨"https://api.cloudflare.com/client/v4/accounts/user/workers/scripts"⟩,
          "Bearer token"⟩
        "fn1" (fun _ => ⟨200, "200 OK", ""⟩)).1 = none :=
  (CF.claim_C8 _ ⟨⟨"log", "user", "token", "pre"⟩,
      ⟨"https://api.cloudflare.com/client/v4/accounts/user/workers/scripts"⟩,
      "Bearer token"⟩
    "fn1" (fun _ => ⟨200, "200 OK", ""⟩)).2.2.2.2.2.1 rfl

/-! ## Upload outcome claims -/

/-- C5: for both variants, a non-200 response to the upload `PUT` makes the
call fail with an error embedding the status code, status text and response
body, and no subdomain `POST` is issued. -/
theorem CF.claim_C5 (c : CF.Cloudflare) (cl : CF.Client)
    (identifier wrapperScript boundary : String)
    (functions : List CF.Function) (scaleFunctions : List CF.ScaleFunction)
    (net : CF.Network) (decode : String → Except String CF.UploadResponse) :
    ((net (CF.uploadPutRequest c identifier wrapperScript functions
        boundary)).statusCode ≠ 200 →
      CF.UploadFunction c identifier wrapperScript functions boundary net decode
        = (.error (.uploadStatus
            (net (CF.uploadPutRequest c identifier wrapperScript functions
              boundary)).statusCode
            (net (CF.uploadPutRequest c identifier wrapperScript functions
              boundary)).status
            (net (CF.uploadPutRequest c identifier wrapperScript functions
              boundary)).body),
          [CF.uploadPutRequest c identifier wrapperScript functions boundary])
      ∧ ∀ r ∈ (CF.UploadFunction c identifier wrapperScript functions boundary
          net decode).2, r.method ≠ .POST)
    ∧ ((net (CF.uploadScalePutRequest cl identifier wrapperScript scaleFunctions
        boundary)).statusCode ≠ 200 →
      CF.UploadScaleFunction cl identifier wrapperScript scaleFunctions boundary
          net decode
        = (.error (.uploadStatus
            (net (CF.uploadScalePutRequest cl identifier wrapperScript
              scaleFunctions boundary)).statusCode
            (net (CF.uploadScalePutRequest cl identifier wrapperScript
              scaleFunctions boundary)).status
            (net (CF.uploadScalePutRequest cl identifier wrapperScript
              scaleFunctions boundary)).body),
          [CF.uploadScalePutRequest cl identifier wrapperScript scaleFunctions
            boundary])
      ∧ ∀ r ∈ (CF.UploadScaleFunction cl identifier wrapperScript scaleFunctions
          boundary net decode).2, r.method ≠ .POST) := by
  constructor
  · intro h
    have he : CF.UploadFunction c identifier wrapperScript functions boundary
        net decode
        = (.error (.uploadStatus
            (net (CF.uploadPutRequest c identifier wrapperScript functions
              boundary)).statusCode
            (net (CF.uploadPutRequest c identifier wrapperScript functions
              boundary)).status
            (net (CF.uploadPutRequest c identifier wrapperScript functions
              boundary)).body),
          [CF.uploadPutRequest c identifier wrapperScript functions boundary]) := by
      simp only [CF.UploadFunction]
      rw [if_pos h]
    refine ⟨he, ?_⟩
    rw [he]
    intro r hr
    simp only [List.mem_singleton] at hr
    subst hr
    simp [CF.uploadPutRequest]
  · intro h
    have he : CF.UploadScaleFunction cl identifier wrapperScript scaleFunctions
        boundary net decode
        = (.error (.uploadStatus
            (net (CF.uploadScalePutRequest cl identifier wrapperScript
              scaleFunctions boundary)).statusCode
            (net (CF.uploadScalePutRequest cl identifier wrapperScript
              scaleFunctions boundary)).status
            (net (CF.uploadScalePutRequest cl identifier wrapperScript
              scaleFunctions boundary)).body),
          [CF.uploadScalePutRequest cl identifier wrapperScript scaleFunctions
            boundary]) := by
      simp only [CF.UploadScaleFunction]
      rw [if_pos h]
    refine ⟨he, ?_⟩
    rw [he]
    intro r hr
    simp only [List.mem_singleton] at hr
    subst hr
    simp [CF.uploadScalePutRequest]

/-- C5 witness: a remote answering 500 with body "internal error" makes the
upload fail with an error embedding 500 and "internal error". -/
theorem CF.claim_C5_witness :
    (CF.UploadFunction
        ⟨⟨"log", false, "user", "token", "pre", "dom"⟩,
          ⟨"https://api.cloudflare.com/client/v4/accounts/user/workers/scripts"⟩,
          "Bearer token"⟩
        "fn1" "console.log(1)" [] "bnd"
        (fun _ => ⟨500, "500 Internal Server Error", "internal error"⟩)
        (fun _ => .error "not json")).1
      = .error (.uploadStatus 500 "500 Internal Server Error"
          "internal error") := by
  have h := (CF.claim_C5
      ⟨⟨"log", false, "user", "token", "pre", "dom"⟩,
        ⟨"https://api.cloudflare.com/client/v4/accounts/user/workers/scripts"⟩,
        "Bearer token"⟩
      ⟨⟨"log", "user", "token", "pre"⟩,
        ⟨"https://api.cloudflare.com/client/v4/accounts/user/workers/scripts"⟩,
        "Bearer token"⟩
      "fn1" "console.log(1)" "bnd" [] []
      (fun _ => ⟨500, "500 Internal Server Error", "internal error"⟩)
      (fun _ => .error "not json")).1 (by decide)
  rw [h.1]

/-- C6 counterexample: `UploadScaleFunction` given a 200 response whose decoded
envelope has `success = false` returns the envelope as a successful call — it
does not fail, so the claim as stated over every upload call is false. -/
theorem CF.claim_C6_counterexample :
    (CF.UploadScaleFunction
        ⟨⟨"log", "user", "token", "pre"⟩,
          ⟨"https://api.cloudflare.com/client/v4/accounts/user/workers/scripts"⟩,
          "Bearer token"⟩
        "fn1" "console.log(1)" [] "bnd"
        (fun _ => ⟨200, "200 OK", "envelope"⟩)
        (fun _ => .ok ⟨false, [⟨10000, "Authentication error"⟩], [],
          ⟨"", "", "", "", "", [], false⟩⟩)).1
      = .ok ⟨false, [⟨10000, "Authentication error"⟩], [],
          ⟨"", "", "", "", "", [], false⟩⟩ := by
  simp [CF.UploadScaleFunction]

/-- C6 as amended: for `UploadFunction` a 200 response is decoded as the JSON
envelope and, when its `success` field is false, the call fails with an error
embedding the structured error list; `UploadScaleFunction` decodes the
envelope but returns it to its caller without checking `success`. -/
theorem CF.claim_C6_amended (c : CF.Cloudflare) (cl : CF.Client)
    (identifier wrapperScript boundary : String)
    (functions : List CF.Function) (scaleFunctions : List CF.ScaleFunction)
    (net : CF.Network) (decode : String → Except String CF.UploadResponse)
    (res res2 : CF.UploadResponse) :
    ((net (CF.uploadPutRequest c identifier wrapperScript functions
        boundary)).statusCode = 200 →
      decode (net (CF.uploadPutRequest c identifier wrapperScript functions
        boundary)).body = .ok res →
      res.Success = false →
      (CF.UploadFunction c identifier wrapperScript functions boundary net
          decode).1
        = .error (.apiFailure res.Errors))
    ∧ ((net (CF.uploadScalePutRequest cl identifier wrapperScript scaleFunctions
        boundary)).statusCode = 200 →
      decode (net (CF.uploadScalePutRequest cl identifier wrapperScript
        scaleFunctions boundary)).body = .ok res2 →
      (CF.UploadScaleFunction cl identifier wrapperScript scaleFunctions
          boundary net decode).1
        = .ok res2) := by
  constructor
  · intro h200 hdec hfalse
    simp only [CF.UploadFunction]
    rw [if_neg (by simp [h200]), hdec]
    simp [hfalse]
  · intro h200 hdec
    simp only [CF.UploadScaleFunction]
    rw [if_neg (by simp [h200]), hdec]

/-- C6 witness for the amended claim, at a concrete client, network and
envelope. -/
theorem CF.claim_C6_witness :
    (CF.UploadFunction
        ⟨⟨"log", false, "user", "token", "pre", "dom"⟩,
          ⟨"https://api.cloudflare.com/client/v4/accounts/user/workers/scripts"⟩,
          "Bearer token"⟩
        "fn1" "console.log(1)" [] "bnd"
        (fun _ => ⟨200, "200 OK", "envelope"⟩)
        (fun _ => .ok ⟨false, [⟨10000, "Authentication error"⟩], [],
          ⟨"", "", "", "", "", [], false⟩⟩)).1
      = .error (.apiFailure [⟨10000, "Authentication error"⟩]) :=
  (CF.claim_C6_amended
    ⟨⟨"log", false, "user", "token", "pre", "dom"⟩,
      ⟨"https://api.cloudflare.com/client/v4/accounts/user/workers/scripts"⟩,
      "Bearer token"⟩
    ⟨⟨"log", "user", "token", "pre"⟩,
      ⟨"https://api.cloudflare.com/client/v4/accounts/user/workers/scripts"⟩,
      "Bearer token"⟩
    "fn1" "console.log(1)" "bnd" [] []
    (fun _ => ⟨200, "200 OK", "envelope"⟩)
    (fun _ => .ok ⟨false, [⟨10000, "Authentication error"⟩], [],
      ⟨"", "", "", "", "", [], false⟩⟩)
    ⟨false, [⟨10000, "Authentication error"⟩], [],
      ⟨"", "", "", "", "", [], false⟩⟩
    ⟨false, [⟨10000, "Authentication error"⟩], [],
      ⟨"", "", "", "", "", [], false⟩⟩).1 rfl rfl rfl

/-- Under a 200 response, a decoded successful envelope and the script not yet
available on the subdomain, `UploadFunction` issues the enable `POST` and its
outcome decides the call. -/
theorem CF.uploadFunction_notAvailable (c : CF.Cloudflare)
    (identifier wrapperScript boundary : String) (functions : List CF.Function)
    (net : CF.Network) (decode : String → Except String CF.UploadResponse)
    (res : CF.UploadResponse)
    (h200 : (net (CF.uploadPutRequest c identifier wrapperScript functions
      boundary)).statusCode = 200)
    (hdec : decode (net (CF.uploadPutRequest c identifier wrapperScript
      functions boundary)).body = .ok res)
    (hsucc : res.Success = true)
    (havail : res.Result.AvailableOnSubdomain = false) :
    CF.UploadFunction c identifier wrapperScript functions boundary net decode
      = ((if (net (CF.subdomainPostRequest c identifier)).statusCode ≠ 200 then
          .error (.subdomainStatus
            (net (CF.subdomainPostRequest c identifier)).statusCode
            (net (CF.subdomainPostRequest c identifier)).status
            (net (CF.subdomainPostRequest c identifier)).body)
        else .ok ⟨identifier, c.options.Prefix ++ identifier⟩),
        [CF.uploadPutRequest c identifier wrapperScript functions boundary,
          CF.subdomainPostRequest c identifier]) := by
  simp only [CF.UploadFunction]
  rw [if_neg (by simp [h200]), hdec]
  simp only [hsucc, havail, Bool.not_true, Bool.not_false, if_true]
  by_cases hp : (net (CF.subdomainPostRequest c identifier)).statusCode = 200 <;>
    simp [hp]

/-- Under a 200 response, a decoded successful envelope and the script already
available on the subdomain, `UploadFunction` returns the handle and issues no
second request. -/
theorem CF.uploadFunction_available (c : CF.Cloudflare)
    (identifier wrapperScript boundary : String) (functions : List CF.Function)
    (net : CF.Network) (decode : String → Except String CF.UploadResponse)
    (res : CF.UploadResponse)
    (h200 : (net (CF.uploadPutRequest c identifier wrapperScript functions
      boundary)).statusCode = 200)
    (hdec : decode (net (CF.uploadPutRequest c identifier wrapperScript
      functions boundary)).body = .ok res)
    (hsucc : res.Success = true)
    (havail : res.Result.AvailableOnSubdomain = true) :
    CF.UploadFunction c identifier wrapperScript functions boundary net decode
      = (.ok ⟨identifier, c.options.Prefix ++ identifier⟩,
        [CF.uploadPutRequest c identifier wrapperScript functions boundary]) := by
  simp only [CF.UploadFunction]
  rw [if_neg (by simp [h200]), hdec]
  simp [hsucc, havail]

/-- C7: under a 200 response with a decoded successful envelope, when
`available_on_subdomain` is false exactly one follow-up `POST` with body
`{"enabled": true}` is issued to `<base-url>/<Prefix><identifier>/subdomain`,
and a non-200 response to it fails the call with an error embedding the
status and response body; when `available_on_subdomain` is true no `POST` is
issued. -/
theorem CF.claim_C7 (c : CF.Cloudflare)
    (identifier wrapperScript boundary : String) (functions : List CF.Function)
    (net : CF.Network) (decode : String → Except String CF.UploadResponse)
    (res : CF.UploadResponse)
    (h200 : (net (CF.uploadPutRequest c identifier wrapperScript functions
      boundary)).statusCode = 200)
    (hdec : decode (net (CF.uploadPutRequest c identifier wrapperScript
      functions boundary)).body = .ok res)
    (hsucc : res.Success = true) :
    (res.Result.AvailableOnSubdomain = false →
      (CF.UploadFunction c identifier wrapperScript functions boundary net
          decode).2
        = [CF.uploadPutRequest c identifier wrapperScript functions boundary,
          CF.subdomainPostRequest c identifier]
      ∧ ((CF.UploadFunction c identifier wrapperScript functions boundary net
          decode).2.countP (fun r => r.method == CF.Method.POST)) = 1
      ∧ (CF.subdomainPostRequest c identifier).method = .POST
      ∧ (CF.subdomainPostRequest c identifier).url
          = c.workerURL.toStr ++ "/" ++ c.options.Prefix ++ identifier
            ++ "/subdomain"
      ∧ (CF.subdomainPostRequest c identifier).body
          = .str "\x7b\"enabled\": true\x7d"
      ∧ ((net (CF.subdomainPostRequest c identifier)).statusCode ≠ 200 →
          (CF.UploadFunction c identifier wrapperScript functions boundary net
              decode).1
            = .error (.subdomainStatus
                (net (CF.subdomainPostRequest c identifier)).statusCode
                (net (CF.subdomainPostRequest c identifier)).status
                (net (CF.subdomainPostRequest c identifier)).body)))
    ∧ (res.Result.AvailableOnSubdomain = true →
        (CF.UploadFunction c identifier wrapperScript functions boundary net
            decode).2
          = [CF.uploadPutRequest c identifier wrapperScript functions boundary]
        ∧ ∀ r ∈ (CF.UploadFunction c identifier wrapperScript functions
            boundary net decode).2, r.method ≠ .POST) := by
  constructor
  · intro havail
    have he := CF.uploadFunction_notAvailable c identifier wrapperScript
      boundary functions net decode res h200 hdec hsucc havail
    refine ⟨by rw [he], ?_, rfl, rfl, rfl, fun hpost => ?_⟩
    · rw [he]
      simp only [List.countP_cons, List.countP_nil, CF.uploadPutRequest,
        CF.subdomainPostRequest]
      rfl
    · rw [he]
      simp [hpost]
  · intro havail
    have he := CF.uploadFunction_available c identifier wrapperScript boundary
      functions net decode res h200 hdec hsucc havail
    refine ⟨by rw [he], ?_⟩
    rw [he]
    intro r hr
    simp only [List.mem_singleton] at hr
    subst hr
    simp [CF.uploadPutRequest]

/-- C7 witness: a 200 upload answer with `available_on_subdomain = false` and
a 200 answer to the enable `POST`; the trace holds the `PUT` then exactly one
`POST`. -/
theorem CF.claim_C7_witness :
    (CF.UploadFunction
        ⟨⟨"log", false, "user", "token", "pre", "dom"⟩,
          ⟨"https://api.cloudflare.com/client/v4/accounts/user/workers/scripts"⟩,
          "Bearer token"⟩
        "fn1" "console.log(1)" [] "bnd"
        (fun _ => ⟨200, "200 OK", "envelope"⟩)
        (fun _ => .ok ⟨true, [], [], ⟨"", "", "", "", "", [], false⟩⟩)).2.countP
      (fun r => r.method == CF.Method.POST) = 1 :=
  ((CF.claim_C7
    ⟨⟨"log", false, "user", "token", "pre", "dom"⟩,
      ⟨"https://api.cloudflare.com/client/v4/accounts/user/workers/scripts"⟩,
      "Bearer token"⟩
    "fn1" "console.log(1)" "bnd" []
    (fun _ => ⟨200, "200 OK", "envelope"⟩)
    (fun _ => .ok ⟨true, [], [], ⟨"", "", "", "", "", [], false⟩⟩)
    ⟨true, [], [], ⟨"", "", "", "", "", [], false⟩⟩
    rfl rfl rfl).1 rfl).2.1
